import Mathlib

/-
Verification of the reconciliation engine of src/app.py (a price/cost
comparison tool): field normalization, identifier normalization, the two
inner joins against the ERP catalog, difference and status computation,
audit-set construction, and the session-state commit discipline of one
analysis run.

Numbers are embedded as rationals; a cell holds a string, a finite number,
or NaN (the pandas representation of an empty or missing cell under the
default NA handling of read_csv and read_excel, src/app.py lines 49-55).
NaN-propagation of the pandas arithmetic is modelled explicitly on cells.
-/

namespace Chocaste

/-- Raw cell value as delivered by the pandas loaders (src/app.py lines
49-55): a string, a finite numeric value, a signed infinity, or NaN.
Empty or missing cells arrive as NaN under the loaders' default NA
handling; infinities arise from float() on inf literals. -/
inductive Cell where
  | str (s : String)
  | num (q : ℚ)
  | inf (neg : Bool)
  | nan
deriving DecidableEq

/-- Python whitespace test used by str.strip. -/
def isWS (c : Char) : Bool := c.isWhitespace

/-- Leading and trailing whitespace removal on a character list. -/
def stripChars (l : List Char) : List Char :=
  ((l.dropWhile isWS).reverse.dropWhile isWS).reverse

/-- Python str.strip(): remove leading and trailing whitespace. -/
def strip (s : String) : String := ⟨stripChars s.data⟩

/-- Numeric value of a digit list, most significant first. -/
def digitsToNat (ds : List Char) : ℕ := ds.foldl (fun n c => 10 * n + (c.toNat - 48)) 0

/-- The value float() in Python returns: a finite value, a signed
infinity, or NaN. -/
inductive PyFloat where
  | finite (q : ℚ)
  | infinite (neg : Bool)
  | nanv
deriving DecidableEq

/-- The cell a float() result lands in: finite values as numbers, inf
literals as signed infinities, nan literals as NaN. Never a string. -/
def pyFloatToCell : PyFloat → Cell
  | .finite q => .num q
  | .infinite b => .inf b
  | .nanv => .nan

/-- Continuation of a digit run with Python underscore grouping: an
underscore is legal only between two digits (a doubled, leading or
trailing underscore invalidates the whole literal, as in float()).
Returns the digits read, underscores removed, and the unread rest. -/
def digitRunGo (acc : List Char) : List Char → Option (List Char × List Char)
  | [] => some (acc, [])
  | c :: r =>
    if c = '_' then
      match r with
      | d :: r2 => if d.isDigit then digitRunGo (acc ++ [d]) r2 else none
      | [] => none
    else if c.isDigit then digitRunGo (acc ++ [c]) r
    else some (acc, c :: r)

/-- A digit run (at least one digit) with Python underscore grouping. -/
def digitRun (cs : List Char) : Option (List Char × List Char) :=
  match cs with
  | c :: r => if c.isDigit then digitRunGo [c] r else none
  | [] => none

/-- Exponent digits of a float literal: a digit run that must consume the
whole rest of the literal. -/
def parseExpDigits (m : ℚ) (neg : Bool) (r : List Char) : Option ℚ :=
  match r with
  | c :: _ =>
    if c.isDigit then
      match digitRun r with
      | none => none
      | some (ds, rest) =>
        if rest = [] then
          some (m * (10 : ℚ) ^ (if neg then -(digitsToNat ds : ℤ) else (digitsToNat ds : ℤ)))
        else none
    else none
  | [] => none

/-- Exponent of a float literal after the e or E: optional sign, then
digits. -/
def parseExpSigned (m : ℚ) : List Char → Option ℚ
  | '+' :: r => parseExpDigits m false r
  | '-' :: r => parseExpDigits m true r
  | r => parseExpDigits m false r

/-- End of a float literal after integer and fraction digits: the mantissa
needs at least one digit somewhere, and only an exponent may follow. -/
def parseAfterFrac (ip fp : List Char) (rest : List Char) : Option ℚ :=
  if ip = [] ∧ fp = [] then none
  else
    let m : ℚ := (digitsToNat ip : ℚ) + (digitsToNat fp : ℚ) / (10 : ℚ) ^ fp.length
    match rest with
    | [] => some m
    | 'e' :: r => parseExpSigned m r
    | 'E' :: r => parseExpSigned m r
    | _ => none

/-- Float literal after the integer digits: an optional decimal point with
optional fraction digits, then an optional exponent. -/
def parseAfterInt (ip : List Char) : List Char → Option ℚ
  | '.' :: r2 =>
    (match r2 with
     | c :: _ =>
       if c.isDigit then
         match digitRun r2 with
         | none => none
         | some (fp, r3) => parseAfterFrac ip fp r3
       else parseAfterFrac ip [] r2
     | [] => parseAfterFrac ip [] [])
  | rest => parseAfterFrac ip [] rest

/-- Unsigned decimal float literal as float() reads it: optional integer
digits, optional point and fraction digits (at least one digit overall),
optional exponent, with underscore grouping inside each digit run. -/
def parseDecimal (cs : List Char) : Option ℚ :=
  match cs with
  | c :: _ =>
    if c.isDigit then
      match digitRun cs with
      | none => none
      | some (ip, r1) => parseAfterInt ip r1
    else parseAfterInt [] cs
  | [] => none

/-- Unsigned part of float(): the case-insensitive literals inf, infinity
and nan (yielding non-finite floats), otherwise a decimal literal. -/
def parsePyFloatUnsigned (cs : List Char) (neg : Bool) : Option PyFloat :=
  let low := cs.map Char.toLower
  if low = "inf".data ∨ low = "infinity".data then some (.infinite neg)
  else if low = "nan".data then some .nanv
  else
    match parseDecimal cs with
    | some q => some (.finite (if neg then -q else q))
    | none => none

/-- Python float() applied to an already-stripped string: optional sign,
then a decimal literal or one of the inf, infinity and nan words. -/
def parsePyFloat (s : String) : Option PyFloat :=
  match s.data with
  | '+' :: r => parsePyFloatUnsigned r false
  | '-' :: r => parsePyFloatUnsigned r true
  | r => parsePyFloatUnsigned r false

/-- Embeds clean_currency (src/app.py lines 34-40): for a string, delete
every dollar sign and comma, strip surrounding whitespace, parse with
float() (which accepts inf and nan literals, yielding non-finite floats),
and default to 0.0 when parsing fails; any non-string value is returned
unchanged by the final `return x` line. Never raises. -/
def clean_currency (x : Cell) : Cell :=
  match x with
  | .str s =>
    (match parsePyFloat (strip ⟨s.data.filter (fun c => !(c == '$' || c == ','))⟩) with
     | some v => pyFloatToCell v
     | none => Cell.num 0)
  | c => c

/-- Rounding to two decimal places, as pandas Series.round(2) does on a
finite value. -/
def round2 (q : ℚ) : ℚ := (round (q * 100) : ℚ) / 100

/-- Series.round(2) on a cell: NaN and infinities stay themselves. -/
def round2C : Cell → Cell
  | .num q => .num (round2 q)
  | c => c

/-- One money-column entry after apply(clean_currency).round(2)
(src/app.py lines 102-103, 123, 152). -/
def cleanMoney (c : Cell) : Cell := round2C (clean_currency c)

/-- Rendering a cell the way astype(str) renders a column entry; a missing
value (NaN) renders as the literal string nan. -/
def cellToString : Cell → String
  | .str s => s
  | .num q => toString q
  | .inf b => if b then "-inf" else "inf"
  | .nan => "nan"

/-- Identifier normalization astype(str).str.strip() (src/app.py lines
101, 122, 151): stringify, then trim whitespace. Total, so an identifier
is never null; a missing cell becomes the string nan. -/
def normalize_identifier (c : Cell) : String := strip (cellToString c)

/-- Raw ERP row, already projected on the positional columns 18, 14, 20
(identifier, public price, cost price) as in src/app.py line 99. -/
structure RawErpRow where
  codigo : Cell
  precio_publico : Cell
  precio_costo : Cell
deriving DecidableEq

/-- Normalized ERP record (src/app.py lines 99-103). -/
structure ErpRow where
  codigo_erp : String
  precio_publico_erp : Cell
  precio_costo_erp : Cell
deriving DecidableEq

/-- Raw public-supplier row, columns 0, 1, 2 (identifier, description,
public price) as in src/app.py line 120. -/
structure RawPubRow where
  codigo : Cell
  desc : Cell
  precio : Cell
deriving DecidableEq

/-- Normalized public-supplier record (src/app.py lines 120-123); the
description column is carried through unchanged. -/
structure PubRow where
  codigo_prov : String
  desc_prov : Cell
  precio_publico_prov : Cell
deriving DecidableEq

/-- Raw cost-supplier row, columns 0 and 9 (identifier, cost price) as in
src/app.py line 149. -/
structure RawCostRow where
  codigo : Cell
  precio : Cell
deriving DecidableEq

/-- Normalized cost-supplier record (src/app.py lines 149-152). -/
structure CostRow where
  codigo_prov : String
  precio_costo_prov : Cell
deriving DecidableEq

/-- ERP normalization (src/app.py lines 99-103). -/
def normalizeErp (r : RawErpRow) : ErpRow :=
  ⟨normalize_identifier r.codigo, cleanMoney r.precio_publico, cleanMoney r.precio_costo⟩

/-- Public-supplier normalization (src/app.py lines 120-123). -/
def normalizePub (r : RawPubRow) : PubRow :=
  ⟨normalize_identifier r.codigo, r.desc, cleanMoney r.precio⟩

/-- Cost-supplier normalization (src/app.py lines 149-152). -/
def normalizeCost (r : RawCostRow) : CostRow :=
  ⟨normalize_identifier r.codigo, cleanMoney r.precio⟩

/-- Subtraction of two cells with float semantics: NaN propagates,
infinity absorbs a finite operand, opposite infinities keep the left
sign, same-signed infinities give NaN. -/
def cellSub : Cell → Cell → Cell
  | .num a, .num b => .num (a - b)
  | .inf s, .num _ => .inf s
  | .num _, .inf s => .inf (!s)
  | .inf s, .inf t => if s = t then Cell.nan else .inf s
  | _, _ => .nan

/-- Division of two cells with float semantics: NaN propagates, a finite
value over an infinity is 0.0, an infinity over a finite value keeps the
sign rule, infinity over infinity is NaN. Only ever applied under the
cellNe0 guard of diffPercent, so a zero numeric denominator never reaches
the rational division. -/
def cellDiv : Cell → Cell → Cell
  | .num a, .num b => .num (a / b)
  | .inf s, .num b => .inf (s != decide (b < 0))
  | .num _, .inf _ => .num 0
  | .inf _, .inf _ => .nan
  | _, _ => .nan

/-- Multiplication of two cells with float semantics: NaN propagates,
infinity times zero is NaN, otherwise signs multiply. -/
def cellMul : Cell → Cell → Cell
  | .num a, .num b => .num (a * b)
  | .inf s, .num b => if b = 0 then Cell.nan else .inf (s != decide (b < 0))
  | .num a, .inf s => if a = 0 then Cell.nan else .inf (s != decide (a < 0))
  | .inf s, .inf t => .inf (s != t)
  | _, _ => .nan

/-- The Python test x != 0 on a cell: True for NaN (as in Python, where
nan != 0 holds), for infinities and for any non-numeric value. -/
def cellNe0 : Cell → Bool
  | .num q => decide (q ≠ 0)
  | _ => true

/-- The percent-difference lambda of src/app.py lines 133-135 and 162-164:
diff divided by the ERP price times 100 when the ERP price differs from 0,
and the sentinel 0.0 otherwise, rounded to two decimals. -/
def diffPercent (diff erpPrice : Cell) : Cell :=
  if cellNe0 erpPrice then round2C (cellMul (cellDiv diff erpPrice) (Cell.num 100))
  else Cell.num 0

/-- The Python test abs(val) < 0.005 on a cell; False for NaN and for
infinities, as in Python. -/
def cellAbsLtTol : Cell → Bool
  | .num q => decide (|q| < 0.005)
  | _ => false

/-- The Python test val > 0 on a cell; False for NaN, True for positive
infinity, as in Python. -/
def cellPos : Cell → Bool
  | .num q => decide (0 < q)
  | .inf b => !b
  | _ => false

/-- Embeds determine_status (src/app.py lines 42-47), applied to the
Diferencia column value of a row: a tolerance of 0.005 classifies the
difference as equal, greater or smaller than the ERP value. -/
def determine_status (val : Cell) : String :=
  if cellAbsLtTol val then "Igual"
  else if cellPos val then "Mayor que ERP"
  else "Menor que ERP"

/-- One row of the public comparison report (src/app.py lines 128-136):
the joined pair of records plus the derived difference, percent difference
and status columns. -/
structure ResPubRow where
  codigo_prov : String
  desc_prov : Cell
  precio_publico_prov : Cell
  codigo_erp : String
  precio_publico_erp : Cell
  diferencia : Cell
  diferencia_pct : Cell
  estado : String
deriving DecidableEq

/-- Derived columns of one matched public row (src/app.py lines 132-136). -/
def mkResPub (p : PubRow) (e : ErpRow) : ResPubRow :=
  let diff := round2C (cellSub p.precio_publico_prov e.precio_publico_erp)
  ⟨p.codigo_prov, p.desc_prov, p.precio_publico_prov, e.codigo_erp, e.precio_publico_erp,
   diff, diffPercent diff e.precio_publico_erp, determine_status diff⟩

/-- The inner merge temp_res_public of src/app.py lines 128-131 with its
derived columns: pandas pd.merge with how equal to inner pairs each left
row with every right row whose key matches, left order first. -/
def temp_res_public (pub : List PubRow) (erp : List ErpRow) : List ResPubRow :=
  pub.flatMap (fun p => (erp.filter (fun e => e.codigo_erp == p.codigo_prov)).map (mkResPub p))

/-- One row of the cost comparison report (src/app.py lines 157-165). -/
structure ResCostRow where
  codigo_prov : String
  precio_costo_prov : Cell
  codigo_erp : String
  precio_costo_erp : Cell
  diferencia : Cell
  diferencia_pct : Cell
  estado : String
deriving DecidableEq

/-- Derived columns of one matched cost row (src/app.py lines 161-165). -/
def mkResCost (c : CostRow) (e : ErpRow) : ResCostRow :=
  let diff := round2C (cellSub c.precio_costo_prov e.precio_costo_erp)
  ⟨c.codigo_prov, c.precio_costo_prov, e.codigo_erp, e.precio_costo_erp,
   diff, diffPercent diff e.precio_costo_erp, determine_status diff⟩

/-- The inner merge temp_res_cost of src/app.py lines 157-160 with its
derived columns. -/
def temp_res_cost (cost : List CostRow) (erp : List ErpRow) : List ResCostRow :=
  cost.flatMap (fun c => (erp.filter (fun e => e.codigo_erp == c.codigo_prov)).map (mkResCost c))

/-- Audit set B1_not_A1 (src/app.py line 139): the public-supplier rows
whose identifier is absent from the ERP identifier set. -/
def audit_B1_not_A1 (pub : List PubRow) (erp : List ErpRow) : List PubRow :=
  pub.filter (fun p => !(erp.any (fun e => e.codigo_erp == p.codigo_prov)))

/-- Audit set A1_not_B1 (src/app.py line 140): the ERP rows whose
identifier is absent from the public-supplier identifier set. -/
def audit_A1_not_B1 (pub : List PubRow) (erp : List ErpRow) : List ErpRow :=
  erp.filter (fun e => !(pub.any (fun p => p.codigo_prov == e.codigo_erp)))

/-- Audit set B2_not_A1 (src/app.py line 168). -/
def audit_B2_not_A1 (cost : List CostRow) (erp : List ErpRow) : List CostRow :=
  cost.filter (fun c => !(erp.any (fun e => e.codigo_erp == c.codigo_prov)))

/-- Audit set A1_not_B2 (src/app.py line 169). -/
def audit_A1_not_B2 (cost : List CostRow) (erp : List ErpRow) : List ErpRow :=
  erp.filter (fun e => !(cost.any (fun c => c.codigo_prov == e.codigo_erp)))

/-- The audit dictionary (src/app.py lines 110, 139-140, 168-169): each
key is present exactly when the corresponding supplier branch ran. -/
structure AuditData where
  b1_not_a1 : Option (List PubRow)
  a1_not_b1 : Option (List ErpRow)
  b2_not_a1 : Option (List CostRow)
  a1_not_b2 : Option (List ErpRow)
deriving DecidableEq

/-- The counts dictionary (src/app.py line 111): raw row counts of the
three inputs, zero for an absent supplier file. -/
structure InputCounts where
  erp : ℕ
  b1 : ℕ
  b2 : ℕ
deriving DecidableEq

/-- Everything one successful run computes before the session-state commit
of src/app.py lines 171-176. -/
structure RunOut where
  res_public : Option (List ResPubRow)
  res_cost : Option (List ResCostRow)
  audit : AuditData
  counts : InputCounts
deriving DecidableEq

/-- The session state of src/app.py lines 58-64: the analyzed flag, the
two stored reports, the audit dictionary and the input counts. -/
structure SessionState where
  analyzed : Bool
  res_public : Option (List ResPubRow)
  res_cost : Option (List ResCostRow)
  audit_data : AuditData
  input_counts : Option InputCounts
deriving DecidableEq

/-- Result of the public branch (src/app.py lines 113-140). -/
structure PubOut where
  res : List ResPubRow
  b1_not_a1 : List PubRow
  a1_not_b1 : List ErpRow
  count : ℕ
deriving DecidableEq

/-- Result of the cost branch (src/app.py lines 142-169). -/
structure CostOut where
  res : List ResCostRow
  b2_not_a1 : List CostRow
  a1_not_b2 : List ErpRow
  count : ℕ
deriving DecidableEq

/-- A supplied supplier file is an Option (List Raw...Row): none models a
file whose parse failed, for which load_data (src/app.py lines 49-55)
reports the error and returns None; the run body then faults on len(None)
inside the try block. -/
def pubBranch (erpS : List ErpRow) (pubF : Option (Option (List RawPubRow))) :
    Except String (Option PubOut) :=
  match pubF with
  | none => .ok none
  | some none => .error ("TypeError: object of type NoneType has no len()")
  | some (some rawPub) =>
    let pubS := rawPub.map normalizePub
    .ok (some ⟨temp_res_public pubS erpS, audit_B1_not_A1 pubS erpS,
               audit_A1_not_B1 pubS erpS, rawPub.length⟩)

/-- Cost branch of the run (src/app.py lines 142-169), mirroring
pubBranch. -/
def costBranch (erpS : List ErpRow) (costF : Option (Option (List RawCostRow))) :
    Except String (Option CostOut) :=
  match costF with
  | none => .ok none
  | some none => .error ("TypeError: object of type NoneType has no len()")
  | some (some rawCost) =>
    let costS := rawCost.map normalizeCost
    .ok (some ⟨temp_res_cost costS erpS, audit_B2_not_A1 costS erpS,
               audit_A1_not_B2 costS erpS, rawCost.length⟩)

/-- The body of the try block of src/app.py lines 93-176: read and
normalize the ERP, run the public branch, then the cost branch, and
assemble the temporaries to be committed. An error value models an
exception reaching the top-level except handler (a failed ERP load faults
at len(df_erp), a failed supplier load at the counts assignment). -/
def computeRun (erpLoad : Option (List RawErpRow))
    (pubF : Option (Option (List RawPubRow)))
    (costF : Option (Option (List RawCostRow))) : Except String RunOut :=
  match erpLoad with
  | none => .error ("TypeError: object of type NoneType has no len()")
  | some rawErp =>
    let erpS := rawErp.map normalizeErp
    match pubBranch erpS pubF with
    | .error e => .error e
    | .ok pOut =>
      match costBranch erpS costF with
      | .error e => .error e
      | .ok cOut =>
        .ok { res_public := pOut.map PubOut.res
            , res_cost := cOut.map CostOut.res
            , audit := ⟨pOut.map PubOut.b1_not_a1, pOut.map PubOut.a1_not_b1,
                        cOut.map CostOut.b2_not_a1, cOut.map CostOut.a1_not_b2⟩
            , counts := ⟨rawErp.length, (pOut.map PubOut.count).getD 0,
                         (cOut.map CostOut.count).getD 0⟩ }

/-- Outcome of pressing the analysis button (src/app.py lines 87-184): a
missing ERP file blocks the run before the try block; otherwise the try
body runs to an error or to the computed temporaries. -/
def runOutcome (erpF : Option (Option (List RawErpRow)))
    (pubF : Option (Option (List RawPubRow)))
    (costF : Option (Option (List RawCostRow))) : Except String RunOut :=
  match erpF with
  | none => .error ("missing required ERP file")
  | some erpLoad => computeRun erpLoad pubF costF

/-- State transition of one analysis run (src/app.py lines 87-184): on any
failure the analyzed flag is cleared and every other stored field is left
exactly as it was (lines 90 and 182-184); on success the computed
temporaries are committed together (lines 171-176). Total, so no
unhandled fault reaches the caller. -/
def runAnalysis (s : SessionState) (erpF : Option (Option (List RawErpRow)))
    (pubF : Option (Option (List RawPubRow)))
    (costF : Option (Option (List RawCostRow))) : SessionState :=
  match runOutcome erpF pubF costF with
  | .error _ => { s with analyzed := false }
  | .ok o => { analyzed := true, res_public := o.res_public, res_cost := o.res_cost,
               audit_data := o.audit, input_counts := some o.counts }

/-- Whether a cell is a finite numeric value (a finite float of the
program). -/
def isNumCell : Cell → Bool
  | .num _ => true
  | _ => false

/-- Whether a cell is a string, the isinstance(x, str) test of
clean_currency. -/
def isStrCell : Cell → Bool
  | .str _ => true
  | _ => false

/-- Concrete one-row ERP record set used to exhibit the row counts of the
two reports. -/
def c8erp : List ErpRow := [⟨"A", Cell.nan, Cell.nan⟩]

/-- Concrete one-row public-supplier record set matching c8erp. -/
def c8pub : List PubRow := [⟨"A", Cell.nan, Cell.nan⟩]

/-- Concrete parseable raw ERP table. -/
def c9erpRaw : List RawErpRow := [⟨Cell.str "A", Cell.nan, Cell.nan⟩]

/-- Concrete parseable raw cost table. -/
def c9costRaw : List RawCostRow := [⟨Cell.str "A", Cell.nan⟩]

/-- A session state holding results of an earlier successful run. -/
def c9state : SessionState :=
  ⟨true, some [], some [], ⟨some [], some [], none, none⟩, some ⟨1, 1, 0⟩⟩

/-- Concrete raw ERP table for the independence runs. -/
def c10erp : List RawErpRow := [⟨Cell.str "A", Cell.nan, Cell.nan⟩]

/-- Concrete raw public table for the independence runs. -/
def c10pub : List RawPubRow := [⟨Cell.str "A", Cell.nan, Cell.nan⟩]

/-- Concrete raw cost table (identifier unmatched in c10erp) for the
independence runs. -/
def c10cost : List RawCostRow := [⟨Cell.str "Z", Cell.nan⟩]

/-- The run output for c10erp and c10pub with no cost file. -/
def c10out1 : RunOut :=
  ⟨some [⟨"A", Cell.nan, Cell.nan, "A", Cell.nan, Cell.nan, Cell.nan, "Menor que ERP"⟩],
   none, ⟨some [], some [], none, none⟩, ⟨1, 1, 0⟩⟩

/-- The run output for c10erp and c10pub with the cost file c10cost. -/
def c10out2 : RunOut :=
  ⟨some [⟨"A", Cell.nan, Cell.nan, "A", Cell.nan, Cell.nan, Cell.nan, "Menor que ERP"⟩],
   some [], ⟨some [], some [], some [⟨"Z", Cell.nan⟩], some [⟨"A", Cell.nan, Cell.nan⟩]⟩,
   ⟨1, 1, 1⟩⟩

/-- Membership in a pandas-style inner join: a row of the joined result is
exactly some left row paired with some right row accepted by the key test. -/
theorem mem_join_iff {α β γ : Type} (A : List α) (B : List β) (f : α → β → Bool)
    (mk : α → β → γ) (r : γ) :
    r ∈ A.flatMap (fun a => (B.filter (f a)).map (mk a)) ↔
      ∃ a ∈ A, ∃ b ∈ B, f a b = true ∧ r = mk a b := by
  simp only [List.mem_flatMap, List.mem_map, List.mem_filter]
  constructor
  · rintro ⟨a, ha, b, ⟨hb, hf⟩, hmk⟩
    exact ⟨a, ha, b, hb, hf, hmk.symm⟩
  · rintro ⟨a, ha, b, hb, hf, hmk⟩
    exact ⟨a, ha, b, ⟨hb, hf⟩, hmk.symm⟩

/-- Identifier presence in a pandas-style inner join on identifier
equality: an identifier is in the joined result exactly when it is in both
input identifier sets. -/
theorem join_ids_iff {α β γ : Type} (A : List α) (B : List β) (ca : α → String)
    (cb : β → String) (mk : α → β → γ) (cg : γ → String)
    (hmk : ∀ a b, cg (mk a b) = ca a) (x : String) :
    (∃ r ∈ A.flatMap (fun a => (B.filter (fun b => cb b == ca a)).map (mk a)), cg r = x) ↔
      ((∃ a ∈ A, ca a = x) ∧ (∃ b ∈ B, cb b = x)) := by
  constructor
  · rintro ⟨r, hr, hx⟩
    rcases (mem_join_iff A B (fun a b => cb b == ca a) mk r).mp hr with ⟨a, ha, b, hb, hf, hr2⟩
    subst hr2
    rw [hmk] at hx
    refine ⟨⟨a, ha, hx⟩, ⟨b, hb, ?_⟩⟩
    rw [beq_iff_eq] at hf
    rw [hf, hx]
  · rintro ⟨⟨a, ha, hax⟩, ⟨b, hb, hbx⟩⟩
    refine ⟨mk a b, ?_, by rw [hmk, hax]⟩
    exact (mem_join_iff A B (fun a b => cb b == ca a) mk (mk a b)).mpr
      ⟨a, ha, b, hb, by rw [beq_iff_eq, hbx, hax], rfl⟩

/-- C1: for both joins of the run (public supplier vs ERP and cost
supplier vs ERP), an identifier value x appears among the rows of the
inner-joined result exactly when x occurs in the identifier set of the
supplier input and in the identifier set of the ERP input. -/
theorem C1_inner_join_membership (pub : List PubRow) (cost : List CostRow)
    (erp : List ErpRow) (x : String) :
    ((∃ r ∈ temp_res_public pub erp, r.codigo_prov = x) ↔
      ((∃ p ∈ pub, p.codigo_prov = x) ∧ (∃ e ∈ erp, e.codigo_erp = x)))
  ∧ ((∃ r ∈ temp_res_cost cost erp, r.codigo_prov = x) ↔
      ((∃ c ∈ cost, c.codigo_prov = x) ∧ (∃ e ∈ erp, e.codigo_erp = x))) := by
  constructor
  · exact join_ids_iff pub erp PubRow.codigo_prov ErpRow.codigo_erp mkResPub
      ResPubRow.codigo_prov (fun _ _ => rfl) x
  · exact join_ids_iff cost erp CostRow.codigo_prov ErpRow.codigo_erp mkResCost
      ResCostRow.codigo_prov (fun _ _ => rfl) x

/-- C2: the status classification of a numeric difference value is
exhaustive and free of gaps and overlaps: Igual exactly when the absolute
difference is below the 0.005 tolerance, otherwise Mayor que ERP exactly
for a positive difference and Menor que ERP exactly for a negative one;
the boundary inputs 0.0049, 0.005 and -0.005 each land in exactly one
class. -/
theorem C2_classify_exhaustive (x : ℚ) :
    (determine_status (Cell.num x) = "Igual" ↔ |x| < 0.005)
  ∧ (determine_status (Cell.num x) = "Mayor que ERP" ↔ (0.005 ≤ |x| ∧ 0 < x))
  ∧ (determine_status (Cell.num x) = "Menor que ERP" ↔ (0.005 ≤ |x| ∧ x < 0))
  ∧ determine_status (Cell.num (0.0049 : ℚ)) = "Igual"
  ∧ determine_status (Cell.num (0.005 : ℚ)) = "Mayor que ERP"
  ∧ determine_status (Cell.num (-0.005 : ℚ)) = "Menor que ERP" := by
  have habs1 : |(0.0049 : ℚ)| < 0.005 := by
    rw [abs_of_pos (by norm_num)]
    norm_num
  have habs2 : ¬(|(0.005 : ℚ)| < 0.005) := by
    rw [abs_of_pos (by norm_num)]
    norm_num
  have habs3 : ¬(|(-0.005 : ℚ)| < 0.005) := by
    rw [abs_of_neg (by norm_num)]
    norm_num
  have s12 : ("Igual" : String) ≠ "Mayor que ERP" := by decide
  have s13 : ("Igual" : String) ≠ "Menor que ERP" := by decide
  have s23 : ("Mayor que ERP" : String) ≠ "Menor que ERP" := by decide
  have hmain : (determine_status (Cell.num x) = "Igual" ↔ |x| < 0.005)
      ∧ (determine_status (Cell.num x) = "Mayor que ERP" ↔ (0.005 ≤ |x| ∧ 0 < x))
      ∧ (determine_status (Cell.num x) = "Menor que ERP" ↔ (0.005 ≤ |x| ∧ x < 0)) := by
    by_cases h1 : |x| < 0.005
    · have hs : determine_status (Cell.num x) = "Igual" := by
        simp [determine_status, cellAbsLtTol, h1]
      refine ⟨⟨fun _ => h1, fun _ => hs⟩, ?_, ?_⟩
      · exact ⟨fun h => absurd (hs.symm.trans h) s12,
          fun hc => absurd h1 (not_lt.mpr hc.1)⟩
      · exact ⟨fun h => absurd (hs.symm.trans h) s13,
          fun hc => absurd h1 (not_lt.mpr hc.1)⟩
    · by_cases h2 : 0 < x
      · have hs : determine_status (Cell.num x) = "Mayor que ERP" := by
          simp [determine_status, cellAbsLtTol, cellPos, h1, h2]
        refine ⟨?_, ⟨fun _ => ⟨not_lt.mp h1, h2⟩, fun _ => hs⟩, ?_⟩
        · exact ⟨fun h => absurd (hs.symm.trans h).symm s12, fun hlt => absurd hlt h1⟩
        · exact ⟨fun h => absurd (hs.symm.trans h) s23,
            fun hc => absurd h2 (asymm hc.2)⟩
      · have hne : x ≠ 0 := by
          intro h0
          rw [h0] at h1
          simp at h1
          exact absurd h1 (by norm_num)
        have hlt : x < 0 := lt_of_le_of_ne (not_lt.mp h2) hne
        have hs : determine_status (Cell.num x) = "Menor que ERP" := by
          simp [determine_status, cellAbsLtTol, cellPos, h1, h2]
        refine ⟨?_, ?_, ⟨fun _ => ⟨not_lt.mp h1, hlt⟩, fun _ => hs⟩⟩
        · exact ⟨fun h => absurd (hs.symm.trans h).symm s13, fun hl => absurd hl h1⟩
        · exact ⟨fun h => absurd (hs.symm.trans h).symm s23, fun hc => absurd hc.2 h2⟩
  refine ⟨hmain.1, hmain.2.1, hmain.2.2, ?_, ?_, ?_⟩
  · simp [determine_status, cellAbsLtTol, habs1]
  · have hp : (0 : ℚ) < 0.005 := by norm_num
    simp [determine_status, cellAbsLtTol, cellPos, habs2, hp]
  · have hp : ¬((0 : ℚ) < -0.005) := by norm_num
    have habs4 : (0.005 : ℚ) ≤ |(0.005 : ℚ)| := by
      rw [abs_of_pos (by norm_num)]
    simp [determine_status, cellAbsLtTol, cellPos, habs3, hp, habs4]

/-- C3: in both comparison reports, every matched row whose ERP-side price
is exactly 0.0 carries a percent difference of 0.0 whatever the supplier
price is, and the percent-difference computation applied to a zero ERP
denominator returns the 0.0 sentinel without performing the division. -/
theorem C3_div_zero_sentinel (pub : List PubRow) (cost : List CostRow)
    (erp : List ErpRow) :
    (∀ r ∈ temp_res_public pub erp, r.precio_publico_erp = Cell.num 0 →
        r.diferencia_pct = Cell.num 0)
  ∧ (∀ r ∈ temp_res_cost cost erp, r.precio_costo_erp = Cell.num 0 →
        r.diferencia_pct = Cell.num 0)
  ∧ (∀ d : Cell, diffPercent d (Cell.num 0) = Cell.num 0) := by
  have hsent : ∀ d : Cell, diffPercent d (Cell.num 0) = Cell.num 0 := by
    intro d
    simp [diffPercent, cellNe0]
  refine ⟨?_, ?_, hsent⟩
  · intro r hr h0
    rcases (mem_join_iff pub erp _ mkResPub r).mp hr with ⟨p, _, e, _, _, hr2⟩
    subst hr2
    have he : e.precio_publico_erp = Cell.num 0 := h0
    show diffPercent _ e.precio_publico_erp = Cell.num 0
    rw [he]
    exact hsent _
  · intro r hr h0
    rcases (mem_join_iff cost erp _ mkResCost r).mp hr with ⟨c, _, e, _, _, hr2⟩
    subst hr2
    have he : e.precio_costo_erp = Cell.num 0 := h0
    show diffPercent _ e.precio_costo_erp = Cell.num 0
    rw [he]
    exact hsent _

/-- Witness for C3: a concrete matched row with ERP public price 0.0 and a
non-numeric supplier price indeed carries the percent sentinel 0.0. -/
theorem C3_witness :
    (mkResPub ⟨"A", Cell.nan, Cell.nan⟩ ⟨"A", Cell.num 0, Cell.num 0⟩ ∈
      temp_res_public [⟨"A", Cell.nan, Cell.nan⟩] [⟨"A", Cell.num 0, Cell.num 0⟩])
  ∧ (mkResPub ⟨"A", Cell.nan, Cell.nan⟩ ⟨"A", Cell.num 0, Cell.num 0⟩).diferencia_pct
      = Cell.num 0 := by
  have hmem : mkResPub ⟨"A", Cell.nan, Cell.nan⟩ ⟨"A", Cell.num 0, Cell.num 0⟩ ∈
      temp_res_public [⟨"A", Cell.nan, Cell.nan⟩] [⟨"A", Cell.num 0, Cell.num 0⟩] := by
    simp [temp_res_public]
  exact ⟨hmem,
    (C3_div_zero_sentinel [⟨"A", Cell.nan, Cell.nan⟩] [] [⟨"A", Cell.num 0, Cell.num 0⟩]).1
      _ hmem rfl⟩

/-- Completeness of one audit direction: the identifiers of the rows of A
kept because their identifier is missing from B, united with the
identifiers common to A and B, are exactly the identifiers of A. -/
theorem audit_complete_iff {α β : Type} (A : List α) (B : List β)
    (ca : α → String) (cb : β → String) (x : String) :
    ((∃ r ∈ A.filter (fun a => !(B.any (fun b => cb b == ca a))), ca r = x)
      ∨ ((∃ a ∈ A, ca a = x) ∧ (∃ b ∈ B, cb b = x)))
    ↔ (∃ a ∈ A, ca a = x) := by
  constructor
  · rintro (⟨r, hr, hx⟩ | ⟨h, _⟩)
    · exact ⟨r, (List.mem_filter.mp hr).1, hx⟩
    · exact h
  · rintro ⟨a, ha, hax⟩
    by_cases hb : ∃ b ∈ B, cb b = x
    · exact Or.inr ⟨⟨a, ha, hax⟩, hb⟩
    · refine Or.inl ⟨a, List.mem_filter.mpr ⟨ha, ?_⟩, hax⟩
      rw [Bool.not_eq_true', List.any_eq_false]
      intro b hbB
      rw [beq_iff_eq]
      intro hcb
      exact hb ⟨b, hbB, hcb.trans hax⟩

/-- The two audit directions are identifier-disjoint: no identifier is at
once in A-not-in-B and in B-not-in-A. -/
theorem audit_disjoint {α β : Type} (A : List α) (B : List β)
    (ca : α → String) (cb : β → String) (x : String) :
    ¬((∃ r ∈ A.filter (fun a => !(B.any (fun b => cb b == ca a))), ca r = x)
      ∧ (∃ r ∈ B.filter (fun b => !(A.any (fun a => ca a == cb b))), cb r = x)) := by
  rintro ⟨⟨r, hr, hx⟩, ⟨s, hs, hy⟩⟩
  rcases List.mem_filter.mp hr with ⟨_, hrn⟩
  rcases List.mem_filter.mp hs with ⟨hsB, _⟩
  rw [Bool.not_eq_true', List.any_eq_false] at hrn
  have hne := hrn s hsB
  rw [beq_iff_eq] at hne
  exact hne (hy.trans hx.symm)

/-- C4: for both audited pairs (public vs ERP and cost vs ERP), the
identifiers of the rows kept as present-in-A-but-not-in-B, united with the
identifiers common to both sources, are exactly A's identifier set, in
both directions; and the two opposite audit directions of a pair share no
identifier (hence no source row). -/
theorem C4_audit_complete_disjoint (pub : List PubRow) (cost : List CostRow)
    (erp : List ErpRow) (x : String) :
    (((∃ r ∈ audit_B1_not_A1 pub erp, r.codigo_prov = x)
        ∨ ((∃ p ∈ pub, p.codigo_prov = x) ∧ (∃ e ∈ erp, e.codigo_erp = x)))
      ↔ (∃ p ∈ pub, p.codigo_prov = x))
  ∧ (((∃ r ∈ audit_A1_not_B1 pub erp, r.codigo_erp = x)
        ∨ ((∃ e ∈ erp, e.codigo_erp = x) ∧ (∃ p ∈ pub, p.codigo_prov = x)))
      ↔ (∃ e ∈ erp, e.codigo_erp = x))
  ∧ ¬((∃ r ∈ audit_B1_not_A1 pub erp, r.codigo_prov = x)
      ∧ (∃ r ∈ audit_A1_not_B1 pub erp, r.codigo_erp = x))
  ∧ (((∃ r ∈ audit_B2_not_A1 cost erp, r.codigo_prov = x)
        ∨ ((∃ c ∈ cost, c.codigo_prov = x) ∧ (∃ e ∈ erp, e.codigo_erp = x)))
      ↔ (∃ c ∈ cost, c.codigo_prov = x))
  ∧ (((∃ r ∈ audit_A1_not_B2 cost erp, r.codigo_erp = x)
        ∨ ((∃ e ∈ erp, e.codigo_erp = x) ∧ (∃ c ∈ cost, c.codigo_prov = x)))
      ↔ (∃ e ∈ erp, e.codigo_erp = x))
  ∧ ¬((∃ r ∈ audit_B2_not_A1 cost erp, r.codigo_prov = x)
      ∧ (∃ r ∈ audit_A1_not_B2 cost erp, r.codigo_erp = x)) := by
  refine ⟨?_, ?_, ?_, ?_, ?_, ?_⟩
  · exact audit_complete_iff pub erp PubRow.codigo_prov ErpRow.codigo_erp x
  · exact audit_complete_iff erp pub ErpRow.codigo_erp PubRow.codigo_prov x
  · exact audit_disjoint pub erp PubRow.codigo_prov ErpRow.codigo_erp x
  · exact audit_complete_iff cost erp CostRow.codigo_prov ErpRow.codigo_erp x
  · exact audit_complete_iff erp cost ErpRow.codigo_erp CostRow.codigo_prov x
  · exact audit_disjoint cost erp CostRow.codigo_prov ErpRow.codigo_erp x

/-- C5: one analysis run is atomic. When the outcome is an error (missing
ERP file, a failed load, or any fault inside the try block) the stored
reports, audit sets and counts are left exactly as they were and only the
analyzed flag is cleared; the temporaries are committed, all together,
exactly when the whole run succeeds. runAnalysis is total, so no unhandled
fault reaches the caller. -/
theorem C5_run_atomic (s : SessionState) (erpF : Option (Option (List RawErpRow)))
    (pubF : Option (Option (List RawPubRow)))
    (costF : Option (Option (List RawCostRow))) :
    (∀ msg, runOutcome erpF pubF costF = .error msg →
        runAnalysis s erpF pubF costF = { s with analyzed := false })
  ∧ (∀ o, runOutcome erpF pubF costF = .ok o →
        runAnalysis s erpF pubF costF =
          ⟨true, o.res_public, o.res_cost, o.audit, some o.counts⟩) := by
  constructor
  · intro msg h
    simp [runAnalysis, h]
  · intro o h
    simp [runAnalysis, h]

/-- Witness for C5: a run whose ERP file fails to load leaves a previously
filled session state untouched except for the cleared analyzed flag. -/
theorem C5_witness :
    runAnalysis ⟨true, some [], none, ⟨none, none, none, none⟩, none⟩ (some none) none none
      = ⟨false, some [], none, ⟨none, none, none, none⟩, none⟩ :=
  (C5_run_atomic ⟨true, some [], none, ⟨none, none, none, none⟩, none⟩
    (some none) none none).1 ("TypeError: object of type NoneType has no len()") rfl

/-- C6 counterexample: clean_currency does not always return a finite
float: a NaN cell (the loaders' missing value, a non-finite float in the
program) passes through unchanged, and the string inf parses via float()
to positive infinity, also non-finite. -/
theorem C6_counterexample :
    clean_currency Cell.nan = Cell.nan
  ∧ isNumCell (clean_currency Cell.nan) = false
  ∧ clean_currency (Cell.str "inf") = Cell.inf false
  ∧ isNumCell (clean_currency (Cell.str "inf")) = false :=
  ⟨rfl, rfl, rfl, rfl⟩

/-- C6 amended: clean_currency never raises (it is total); every string
input yields a float value and never a string: the finite float of a
decimal literal, a signed infinity or NaN for the inf and nan literals
float() accepts, or the 0.0 fallback when parsing fails; every non-string
input is returned unchanged by the final return line, so non-finite and
non-float values pass through as they are. -/
theorem C6_clean_currency_amended :
    (∀ s : String, (∃ q : ℚ, clean_currency (Cell.str s) = Cell.num q)
      ∨ (∃ b : Bool, clean_currency (Cell.str s) = Cell.inf b)
      ∨ clean_currency (Cell.str s) = Cell.nan)
  ∧ (∀ c : Cell, isStrCell c = false → clean_currency c = c) := by
  constructor
  · intro s
    rcases hp : parsePyFloat (strip ⟨s.data.filter (fun c => !(c == '$' || c == ','))⟩)
      with _ | v
    · exact Or.inl ⟨0, by simp only [clean_currency, hp]⟩
    · cases v with
      | finite q => exact Or.inl ⟨q, by simp only [clean_currency, hp, pyFloatToCell]⟩
      | infinite b =>
        exact Or.inr (Or.inl ⟨b, by simp only [clean_currency, hp, pyFloatToCell]⟩)
      | nanv => exact Or.inr (Or.inr (by simp only [clean_currency, hp, pyFloatToCell]))
  · intro c hc
    cases c with
    | str s => simp [isStrCell] at hc
    | num q => rfl
    | inf b => rfl
    | nan => rfl

/-- Witness for C6: the NaN cell is not a string and passes through
clean_currency unchanged. -/
theorem C6_witness : isStrCell Cell.nan = false ∧ clean_currency Cell.nan = Cell.nan :=
  ⟨rfl, C6_clean_currency_amended.2 Cell.nan rfl⟩

/-- The head of a dropWhile result never satisfies the dropped
predicate. -/
theorem dropWhile_head_false {α : Type} (p : α → Bool) (l : List α) (c : α)
    (t : List α) (h : l.dropWhile p = c :: t) : p c = false := by
  induction l with
  | nil => simp [List.dropWhile] at h
  | cons a as ih =>
    by_cases ha : p a
    · rw [List.dropWhile_cons_of_pos ha] at h
      exact ih h
    · rw [List.dropWhile_cons_of_neg ha] at h
      cases h
      simpa using ha

/-- The first character of a stripped character list is not whitespace. -/
theorem stripChars_head (l : List Char) (c : Char) (t : List Char)
    (h : stripChars l = c :: t) : isWS c = false := by
  have hsplit := List.takeWhile_append_dropWhile (p := isWS) (l := (l.dropWhile isWS).reverse)
  have hm2 : l.dropWhile isWS =
      stripChars l ++ ((l.dropWhile isWS).reverse.takeWhile isWS).reverse := by
    have hrev := congrArg List.reverse hsplit
    rw [List.reverse_append] at hrev
    calc l.dropWhile isWS = (l.dropWhile isWS).reverse.reverse := (List.reverse_reverse _).symm
      _ = ((l.dropWhile isWS).reverse.dropWhile isWS).reverse
            ++ ((l.dropWhile isWS).reverse.takeWhile isWS).reverse := hrev.symm
      _ = stripChars l ++ ((l.dropWhile isWS).reverse.takeWhile isWS).reverse := rfl
  rw [h, List.cons_append] at hm2
  exact dropWhile_head_false isWS l c _ hm2

/-- The last character of a stripped character list is not whitespace. -/
theorem stripChars_last (l : List Char) (c : Char) (t : List Char)
    (h : (stripChars l).reverse = c :: t) : isWS c = false := by
  have hs : (stripChars l).reverse = (l.dropWhile isWS).reverse.dropWhile isWS := by
    simp [stripChars]
  rw [hs] at h
  exact dropWhile_head_false isWS _ c t h

/-- C7: identifier normalization always yields a trimmed string: its first
and its last character, when present, are not whitespace; and a missing
raw identifier (the NaN cell the loaders deliver for an empty or missing
field) becomes the literal string nan. The function is total, so an
identifier is never null. -/
theorem C7_normalize_identifier (c : Cell) :
    (∀ ch : Char, ∀ t : List Char,
        (normalize_identifier c).data = ch :: t → isWS ch = false)
  ∧ (∀ ch : Char, ∀ t : List Char,
        (normalize_identifier c).data.reverse = ch :: t → isWS ch = false)
  ∧ normalize_identifier Cell.nan = "nan" := by
  refine ⟨?_, ?_, ?_⟩
  · intro ch t h
    exact stripChars_head (cellToString c).data ch t h
  · intro ch t h
    exact stripChars_last (cellToString c).data ch t h
  · rfl

/-- C8 counterexample: with the one-row main report built from c8pub and
c8erp and an empty cost record set, the cost report of the code has 0 rows
while the main report has 1: the cost integration of src/app.py lines
157-160 is not a left join preserving the main report's rows. -/
theorem C8_counterexample :
    (temp_res_cost [] c8erp).length = 0
  ∧ (temp_res_public c8pub c8erp).length = 1
  ∧ (temp_res_cost [] c8erp).length ≠ (temp_res_public c8pub c8erp).length := by
  refine ⟨rfl, ?_, ?_⟩
  · decide
  · decide

/-- C8 amended: the cost integration is an inner join of the cost records
with the ERP records on identifier, computed independently of the main
public report: it has one row per matching pair, so its row count is the
sum over cost rows of the number of ERP rows with the same identifier (and
not in general the main report's row count). -/
theorem C8_cost_join_amended (cost : List CostRow) (erp : List ErpRow) :
    (temp_res_cost cost erp).length =
      ((cost.map (fun c => (erp.filter (fun e => e.codigo_erp == c.codigo_prov)).length)).sum) := by
  rw [temp_res_cost, List.length_flatMap]
  congr 1
  congr 1
  funext c
  simp [Function.comp, List.length_map]

/-- C9 counterexample: a run with a parseable ERP file, an unparseable
public file and a parseable cost file aborts entirely: the analyzed flag
is cleared and nothing is committed, although section 4.2 of the spec says
a load failure is reported to the caller and is not fatal to the whole
run. -/
theorem C9_counterexample :
    runAnalysis c9state (some (some c9erpRaw)) (some none) (some (some c9costRaw))
      = { c9state with analyzed := false } := rfl

/-- C9 amended: a parse failure of any supplied file always aborts the
whole run, as section 7 describes: load_data reports the error and returns
None, the run body then faults on len(None), the top-level handler marks
the run not analyzed, and the prior state stays untouched with no
partially populated report. The caller never decides to continue, contrary
to section 4.2. -/
theorem C9_load_error_aborts (s : SessionState) (e : List RawErpRow)
    (p : Option (Option (List RawPubRow))) (c : Option (Option (List RawCostRow))) :
    runAnalysis s (some none) p c = { s with analyzed := false }
  ∧ runAnalysis s (some (some e)) (some none) c = { s with analyzed := false }
  ∧ runAnalysis s (some (some e)) p (some none) = { s with analyzed := false } := by
  refine ⟨rfl, rfl, ?_⟩
  cases p with
  | none => rfl
  | some lp =>
    cases lp with
    | none => rfl
    | some t => rfl

/-- C10: the two analysis branches do not interfere. For successful runs
with the same ERP and public inputs, the public report and its two audit
sets are identical whatever cost input was supplied; symmetrically, for
successful runs with the same ERP and cost inputs, the cost report and its
two audit sets are identical whatever public input was supplied. -/
theorem C10_branch_independence (erpLoad : Option (List RawErpRow))
    (pubF pubF2 : Option (Option (List RawPubRow)))
    (costF costF2 : Option (Option (List RawCostRow))) (o o2 : RunOut) :
    (computeRun erpLoad pubF costF = .ok o → computeRun erpLoad pubF costF2 = .ok o2 →
      o.res_public = o2.res_public ∧ o.audit.b1_not_a1 = o2.audit.b1_not_a1
        ∧ o.audit.a1_not_b1 = o2.audit.a1_not_b1 ∧ o.counts.erp = o2.counts.erp
        ∧ o.counts.b1 = o2.counts.b1)
  ∧ (computeRun erpLoad pubF costF = .ok o → computeRun erpLoad pubF2 costF = .ok o2 →
      o.res_cost = o2.res_cost ∧ o.audit.b2_not_a1 = o2.audit.b2_not_a1
        ∧ o.audit.a1_not_b2 = o2.audit.a1_not_b2 ∧ o.counts.b2 = o2.counts.b2) := by
  constructor
  · intro h1 h2
    cases erpLoad with
    | none => simp [computeRun] at h1
    | some rawErp =>
      simp only [computeRun] at h1 h2
      rcases hP : pubBranch (rawErp.map normalizeErp) pubF with eP | pOut
      · rw [hP] at h1
        simp at h1
      · rw [hP] at h1 h2
        rcases hC : costBranch (rawErp.map normalizeErp) costF with eC | cOut
        · rw [hC] at h1
          simp at h1
        · rcases hC2 : costBranch (rawErp.map normalizeErp) costF2 with eC2 | cOut2
          · rw [hC2] at h2
            simp at h2
          · rw [hC] at h1
            rw [hC2] at h2
            simp only [] at h1 h2
            injection h1 with h1
            injection h2 with h2
            subst h1
            subst h2
            exact ⟨rfl, rfl, rfl, rfl, rfl⟩
  · intro h1 h2
    cases erpLoad with
    | none => simp [computeRun] at h1
    | some rawErp =>
      simp only [computeRun] at h1 h2
      rcases hC : costBranch (rawErp.map normalizeErp) costF with eC | cOut
      · rw [hC] at h1
        rcases hP : pubBranch (rawErp.map normalizeErp) pubF with eP | pOut
        · rw [hP] at h1
          simp at h1
        · rw [hP] at h1
          simp at h1
      · rw [hC] at h1 h2
        rcases hP : pubBranch (rawErp.map normalizeErp) pubF with eP | pOut
        · rw [hP] at h1
          simp at h1
        · rcases hP2 : pubBranch (rawErp.map normalizeErp) pubF2 with eP2 | pOut2
          · rw [hP2] at h2
            simp at h2
          · rw [hP] at h1
            rw [hP2] at h2
            simp only [] at h1 h2
            injection h1 with h1
            injection h2 with h2
            subst h1
            subst h2
            exact ⟨rfl, rfl, rfl, rfl⟩

/-- Witness for C10: two concrete successful runs differing only in the
cost input (absent versus the unmatched c10cost) commit identical public
reports and public audit sets. -/
theorem C10_witness :
    computeRun (some c10erp) (some (some c10pub)) none = .ok c10out1
  ∧ computeRun (some c10erp) (some (some c10pub)) (some (some c10cost)) = .ok c10out2
  ∧ c10out1.res_public = c10out2.res_public
  ∧ c10out1.audit.b1_not_a1 = c10out2.audit.b1_not_a1
  ∧ c10out1.audit.a1_not_b1 = c10out2.audit.a1_not_b1 := by
  have h1 : computeRun (some c10erp) (some (some c10pub)) none = .ok c10out1 := rfl
  have h2 : computeRun (some c10erp) (some (some c10pub)) (some (some c10cost))
      = .ok c10out2 := rfl
  have h3 := (C10_branch_independence (some c10erp) (some (some c10pub))
    (some (some c10pub)) none (some (some c10cost)) c10out1 c10out2).1 h1 h2
  exact ⟨h1, h2, h3.1, h3.2.1, h3.2.2.1⟩

end Chocaste
